import Mathlib

/-!
Shallow embedding of the core of `src/main.cpp` (the "dragon" desktop-overlay
scene/animation engine) and proofs about it.  Machine floats of the source are
modelled by exact rationals; C integer casts and `std::round` are modelled by
explicit truncation/rounding functions; the transcendental library calls
(`cos`, `sin`, `powf`) that feed the geometry are passed in as parameters,
since every verified property is independent of their values.
-/

namespace Dragon

/-! ## Numeric primitives -/

/-- Truncation toward zero, the meaning of a C `(int)` cast applied to a
floating point value (`(int)pos.x` in `to_json`, `(int)x` in the hatch-line
intersection code, `(int)((pt.x - rc.x) / scale)` in `Image::hit_test`). -/
def ctrunc (q : ℚ) : ℤ :=
  if q < 0 then -⌊-q⌋ else ⌊q⌋

/-- `std::round`: round half away from zero (used by `round_to_precision`). -/
def cround (q : ℚ) : ℤ :=
  if q < 0 then -⌊-q + 1/2⌋ else ⌊q + 1/2⌋

/-- `round_to_precision(value, decimals)` from `src/main.cpp:2448`:
`std::round(value * 10^decimals) / 10^decimals`. -/
def round_to_precision (value : ℚ) (decimals : ℕ) : ℚ :=
  (cround (value * 10 ^ decimals) : ℚ) / 10 ^ decimals

/-- `BLENDED_ALPHA_FLOAT(img_alpha, glob_alpha)` from `src/main.cpp:79`:
`SDL_min(1.f, img_alpha * 0.5f + glob_alpha * 0.8f + 0.1f)`. -/
def BLENDED_ALPHA_FLOAT (img_alpha glob_alpha : ℚ) : ℚ :=
  min 1 (img_alpha * (1/2) + glob_alpha * (4/5) + 1/10)

/-! ## GIF engine: palette mapping and frame disposal (`AnimatedGif::render_frame`) -/

/-- One palette entry of a GIF color map (`GifColorType`: Red, Green, Blue bytes). -/
structure GifColor where
  red : ℕ
  green : ℕ
  blue : ℕ
deriving DecidableEq

/-- `SDL_MapRGBA` for the `SDL_PIXELFORMAT_RGBA8888` pixel format: the packed
32-bit value has R in the most significant byte and A in the least. -/
def mapRGBA8888 (r g b a : ℕ) : ℕ :=
  r * 2 ^ 24 + g * 2 ^ 16 + b * 2 ^ 8 + a

/-- giflib's `NO_TRANSPARENT_COLOR` sentinel. -/
def NO_TRANSPARENT_COLOR : ℤ := -1

/-- The restore-to-background disposal of `AnimatedGif::render_frame`
(`src/main.cpp:1553-1573`): the pixel value `SDL_FillSurfaceRect` paints over
the previous frame's rectangle.  The code tests
`bg_color == NO_TRANSPARENT_COLOR || bg_color < color_map->ColorCount` and
fills with 0 (fully transparent) when that holds, otherwise it reads
`color_map->Colors[bg_color]` (out of the palette's bounds in that branch,
modelled as an `Option` lookup) and fills with it at alpha 255. -/
def dispose_background_fill (bg_color : ℤ) (colors : List GifColor) : Option ℕ :=
  if bg_color = NO_TRANSPARENT_COLOR ∨ bg_color < (colors.length : ℤ) then
    some 0
  else
    (colors[bg_color.toNat]?).map fun c => mapRGBA8888 c.red c.green c.blue 255

/-- The per-frame palette table built by `render_frame`
(`src/main.cpp:1592-1610`): index `i` maps to the sentinel 0 when `i` equals
the frame's transparent index, and to the opaque (`alpha = 255`) mapped RGBA
color otherwise. -/
def palette_color (colors : List GifColor) (transparent_color : ℤ) (i : ℕ) : ℕ :=
  if (i : ℤ) = transparent_color then 0
  else mapRGBA8888 (colors.getD i ⟨0, 0, 0⟩).red (colors.getD i ⟨0, 0, 0⟩).green
    (colors.getD i ⟨0, 0, 0⟩).blue 255

/-- The per-pixel raster decode step of `render_frame`
(`src/main.cpp:1614-1630`): the new value of a canvas pixel whose raster byte
is `color_index` and whose previous value is `old`.  Out-of-palette indices
are skipped by the `color_index < color_map->ColorCount` guard, and the
sentinel value 0 (`if (color) *addr = color;`) leaves the pixel unchanged. -/
def render_frame_pixel (colors : List GifColor) (transparent_color : ℤ)
    (color_index : ℕ) (old : ℕ) : ℕ :=
  if color_index < colors.length then
    if palette_color colors transparent_color color_index ≠ 0 then
      palette_color colors transparent_color color_index
    else old
  else old

/-! ## Line-pattern spacing (`LineObject::handle_event`, `init_screen_objects`) -/

/-- The SHIFT+wheel spacing adjustment of `LineObject::handle_event`
(`src/main.cpp:318-327`): multiply by 1.1 (wheel up) or 0.9 (wheel down),
then clamp with `SDL_max(2, ·)` followed by `SDL_min(50, ·)`. -/
def wheel_adjust_spacing (line_spacing : ℚ) (wheel_up : Bool) : ℚ :=
  min 50 (max 2 (line_spacing * (if wheel_up then 11/10 else 9/10)))

/-- `init_screen_objects` (`src/main.cpp:2274`): the persisted record's
`line_spacing` value is stored directly, with default 15 — no clamping. -/
def init_line_spacing (record_value : Option ℚ) : ℚ :=
  record_value.getD 15

/-! ## Object serialization round trip (`to_json` / json constructors) -/

/-- The transform fields common to Signature, Image and AnimatedGif objects
(the `ScreenObject` base state relevant to persistence). -/
structure ObjectProps where
  x : ℚ
  y : ℚ
  scale : ℚ
  rotate : ℚ
  alpha : ℚ

/-- The common fields of a persisted object record. -/
structure ObjectRecord where
  x : ℤ
  y : ℤ
  scale : ℚ
  rotate : ℚ
  alpha : ℚ

/-- The common part of `Signature::to_json` (`src/main.cpp:764-770`),
`Image::to_json` (1112-1120) and `AnimatedGif::to_json` (1460-1468):
`x`/`y` are written as `(int)pos.x`/`(int)pos.y`, `scale` and `rotate` are
rounded to 4 decimals, `alpha` to 2 decimals. -/
def to_record (p : ObjectProps) : ObjectRecord :=
  { x := ctrunc p.x
    y := ctrunc p.y
    scale := round_to_precision p.scale 4
    rotate := round_to_precision p.rotate 4
    alpha := round_to_precision p.alpha 2 }

/-- The json constructors (`Signature(json&,...)`, `Image(json&,...)`,
`AnimatedGif(json&,...)`) read `x`, `y`, `scale`, `rotate`, `alpha` back
verbatim from the record. -/
def from_record (r : ObjectRecord) : ObjectProps :=
  { x := r.x, y := r.y, scale := r.scale, rotate := r.rotate, alpha := r.alpha }

/-! ## Hex color serialization (`int_to_hex_color`, `hex_color_to_int`) -/

/-- One character of the `[0-9A-Fa-f]` class accepted by the regex
`^#([0-9A-Fa-f]{6})$` in `hex_color_to_int` (`src/main.cpp:2637`). -/
def is_hex_digit (ch : Char) : Bool :=
  decide (('0' ≤ ch ∧ ch ≤ '9') ∨ ('A' ≤ ch ∧ ch ≤ 'F') ∨ ('a' ≤ ch ∧ ch ≤ 'f'))

/-- Value of a hex digit, as computed by `std::stoi(·, nullptr, 16)` on the
two-character channel substrings. -/
def hex_digit_val (ch : Char) : ℕ :=
  if '0' ≤ ch ∧ ch ≤ '9' then ch.toNat - '0'.toNat
  else if 'A' ≤ ch ∧ ch ≤ 'F' then ch.toNat - 'A'.toNat + 10
  else ch.toNat - 'a'.toNat + 10

/-- One output digit of the `std::uppercase << std::hex` formatting used by
`int_to_hex_color` (`src/main.cpp:2684`). -/
def to_hex_digit_upper (n : ℕ) : Char :=
  if n < 10 then Char.ofNat ('0'.toNat + n) else Char.ofNat ('A'.toNat + (n - 10))

/-- `int_to_hex_color` (`src/main.cpp:2677-2686`): throws (`none`) for colors
above `0xFFFFFF` (the `color < 0x000000` half of the check is vacuous since
`COLORREF` is unsigned), otherwise formats `'#'` followed by six uppercase
hex digits, zero padded. -/
def int_to_hex_color (color : ℕ) : Option (List Char) :=
  if color > 0xFFFFFF then none
  else some ['#',
    to_hex_digit_upper (color / 1048576 % 16), to_hex_digit_upper (color / 65536 % 16),
    to_hex_digit_upper (color / 4096 % 16), to_hex_digit_upper (color / 256 % 16),
    to_hex_digit_upper (color / 16 % 16), to_hex_digit_upper (color % 16)]

/-- `hex_color_to_int` (`src/main.cpp:2635-2651`): throws (`none`) unless the
string matches `^#([0-9A-Fa-f]{6})$`, then parses the three channels and
packs `(r << 16) | (g << 8) | b`; the channels occupy disjoint bit ranges, so
the bitwise or is addition. -/
def hex_color_to_int (hex : List Char) : Option ℕ :=
  match hex with
  | ['#', d1, d2, d3, d4, d5, d6] =>
    if is_hex_digit d1 && is_hex_digit d2 && is_hex_digit d3 && is_hex_digit d4 &&
        is_hex_digit d5 && is_hex_digit d6 then
      some ((hex_digit_val d1 * 16 + hex_digit_val d2) * 65536 +
        (hex_digit_val d3 * 16 + hex_digit_val d4) * 256 +
        (hex_digit_val d5 * 16 + hex_digit_val d6))
    else none
  | _ => none

/-! ## Transform and hit-test primitives -/

/-- `ScreenObject::rotate_point` (`src/main.cpp:163-173`) with the cosine and
sine of the angle supplied by the caller (the code computes them with
`cos`/`sin` of `phi_deg * M_PI / 180`):
`pt.x = ct.x + dx*cos - dy*sin`, `pt.y = ct.y + dx*sin + dy*cos`. -/
def rotate_point (ctX ctY ptX ptY cphi sphi : ℚ) : ℚ × ℚ :=
  (ctX + (ptX - ctX) * cphi - (ptY - ctY) * sphi,
   ctY + (ptX - ctX) * sphi + (ptY - ctY) * cphi)

/-- SDL3's `SDL_PointInRectFloat`: containment with the right and bottom
edges inclusive. -/
def SDL_PointInRectFloat (px py rx ry rw rh : ℚ) : Bool :=
  decide (rx ≤ px ∧ px ≤ rx + rw ∧ ry ≤ py ∧ py ≤ ry + rh)

/-- The state of an `Image` screen object used by `Image::hit_test`
(`src/main.cpp:1131-1162`).  `alphaAt x y` is the alpha channel of the
decoded RGBA surface, whose dimensions equal `extent` (the extent is read
from the surface's clip rectangle at load time).  `hasTexture` stands for
the `texture` pointer being non-null. -/
structure ImageState where
  posX : ℚ
  posY : ℚ
  extentX : ℤ
  extentY : ℤ
  extentW : ℤ
  extentH : ℤ
  scale : ℚ
  rotate : ℚ
  alpha : ℚ
  flip_horizontal : Bool
  alphaAt : ℤ → ℤ → ℕ
  hasTexture : Bool
  deleted : Bool

/-- `Image::valid` / `Signature::valid`: a non-null texture and not
soft-deleted. -/
def ImageState.is_valid (img : ImageState) : Bool :=
  img.hasTexture && !img.deleted

/-- The bounding rectangle used by `hit_test`: anchored at
`pos - extent.{x,y} * scale`, sized `extent.{w,h} * scale`. -/
def image_rect (img : ImageState) : ℚ × ℚ × ℚ × ℚ :=
  (img.posX - img.extentX * img.scale, img.posY - img.extentY * img.scale,
   img.extentW * img.scale, img.extentH * img.scale)

/-- The point `hit_test` actually tests: the input point rotated by
`-rotate` about `pos` when `rotate != 0`, the input point itself otherwise.
`cInv`/`sInv` are the cosine and sine of `-rotate` degrees. -/
def image_local_point (img : ImageState) (ptX ptY cInv sInv : ℚ) : ℚ × ℚ :=
  if img.rotate = 0 then (ptX, ptY)
  else rotate_point img.posX img.posY ptX ptY cInv sInv

/-- The bitmap coordinates `Image::hit_test` reads:
`xoff = (int)((pt.x - rc.x) / scale)`, mirrored when `flip_horizontal`,
and `yoff = (int)((pt.y - rc.y) / scale)`. -/
def image_pixel_coords (img : ImageState) (px py : ℚ) : ℤ × ℤ :=
  let rc := image_rect img
  let xoff := ctrunc ((px - rc.1) / img.scale)
  let yoff := ctrunc ((py - rc.2.1) / img.scale)
  (if img.flip_horizontal then img.extentW - xoff - 1 else xoff, yoff)

/-- `SDL_ReadSurfacePixel` on the image's surface: succeeds exactly on
coordinates inside the surface, returning the pixel's alpha. -/
def read_surface_alpha (img : ImageState) (x y : ℤ) : Option ℕ :=
  if 0 ≤ x ∧ x < img.extentW ∧ 0 ≤ y ∧ y < img.extentH then some (img.alphaAt x y)
  else none

/-- `Image::hit_test` (`src/main.cpp:1131-1162`): reject invalid objects,
inverse-rotate the point, test the scaled bounding rectangle, then consult
the per-pixel alpha with threshold `alpha > 50`; a failed pixel read yields
false. -/
def Image_hit_test (img : ImageState) (ptX ptY cInv sInv : ℚ) : Bool :=
  if !img.is_valid then false
  else
    let rc := image_rect img
    let p := image_local_point img ptX ptY cInv sInv
    if SDL_PointInRectFloat p.1 p.2 rc.1 rc.2.1 rc.2.2.1 rc.2.2.2 then
      let xy := image_pixel_coords img p.1 p.2
      match read_surface_alpha img xy.1 xy.2 with
      | some a => decide (a > 50)
      | none => false
    else false

/-! ## Hatch-line generator (`LineObject::draw`, `src/main.cpp:367-616`) -/

/-- An integer screen point (`SDL_Point`). -/
structure IPoint where
  x : ℤ
  y : ℤ
deriving DecidableEq

/-- The comparator of the `std::sort` call in `LineObject::draw`
(`src/main.cpp:430-438`): order by `x`, then by `y`. -/
def ipoint_le (a b : IPoint) : Bool :=
  decide (a.x < b.x ∨ (a.x = b.x ∧ a.y ≤ b.y))

def insert_sorted (p : IPoint) : List IPoint → List IPoint
  | [] => [p]
  | q :: rest => if ipoint_le p q then p :: q :: rest else q :: insert_sorted p rest

/-- Sorting the intersection list (`std::sort` with the x-then-y
comparator). -/
def sort_points : List IPoint → List IPoint
  | [] => []
  | p :: rest => insert_sorted p (sort_points rest)

/-- `std::unique` on the sorted list: collapse adjacent duplicates
(`src/main.cpp:439-448`). -/
def dedup_adjacent : List IPoint → List IPoint
  | [] => []
  | [p] => [p]
  | p :: q :: rest =>
    if p = q then dedup_adjacent (p :: rest) else p :: dedup_adjacent (q :: rest)
termination_by l => l.length

/-- The up-to-four candidate intersections of the line `-sa*x + ca*y = c`
with the edges of the `W x H` work area, in the order the code pushes them
(top edge, bottom edge, left edge, right edge), each filtered to the finite
edge segment and truncated to integer coordinates
(`src/main.cpp:404-426`). -/
def intersection_candidates (W H : ℤ) (sa ca c : ℚ) : List IPoint :=
  (if sa ≠ 0 ∧ 0 ≤ -c / sa ∧ -c / sa ≤ (W : ℚ) then
    [⟨ctrunc (-c / sa), 0⟩] else []) ++
  (if sa ≠ 0 ∧ 0 ≤ ((H : ℚ) * ca - c) / sa ∧ ((H : ℚ) * ca - c) / sa ≤ (W : ℚ) then
    [⟨ctrunc (((H : ℚ) * ca - c) / sa), H⟩] else []) ++
  (if ca ≠ 0 ∧ 0 ≤ c / ca ∧ c / ca ≤ (H : ℚ) then
    [⟨0, ctrunc (c / ca)⟩] else []) ++
  (if ca ≠ 0 ∧ 0 ≤ (c + (W : ℚ) * sa) / ca ∧ (c + (W : ℚ) * sa) / ca ≤ (H : ℚ) then
    [⟨W, ctrunc ((c + (W : ℚ) * sa) / ca)⟩] else [])

/-- One hatch line's segment: sort the candidates, drop coincident corner
hits, and take the first two distinct points; lines with fewer than two
valid intersections are skipped (`src/main.cpp:428-453`). -/
def segment_of_line (W H : ℤ) (sa ca c : ℚ) : Option (IPoint × IPoint) :=
  match dedup_adjacent (sort_points (intersection_candidates W H sa ca c)) with
  | p1 :: p2 :: _ => some (p1, p2)
  | _ => none

/-- The constants of the line family: `c` stepped by `spacing` from `c_min`
(inclusive) while `c < c_max`, where `c_min`/`c_max` come from evaluating the
constant at the four corners (`src/main.cpp:379-385`, loop heads at 402 and
511).  Embedded for positive spacing (the loop does not terminate
otherwise). -/
def line_constants (c_min c_max spacing : ℚ) : List ℚ :=
  if 0 < spacing then
    (List.range (⌈(c_max - c_min) / spacing⌉.toNat)).map fun k => c_min + k * spacing
  else []

/-- The family of clipped hatch segments produced by one `LineObject::draw`
pass over a `W x H` area, given the angle's sine and cosine. -/
def hatch_segments (W H : ℤ) (sa ca spacing : ℚ) : List (IPoint × IPoint) :=
  let c00 : ℚ := 0
  let c10 : ℚ := -sa * (W : ℚ)
  let c01 : ℚ := ca * (H : ℚ)
  let c11 : ℚ := -sa * (W : ℚ) + ca * (H : ℚ)
  let c_min := min (min c00 c10) (min c01 c11)
  let c_max := max (max c00 c10) (max c01 c11)
  (line_constants c_min c_max spacing).filterMap (segment_of_line W H sa ca)

/-! ## Event handling (`Signature::handle_event`, `Image::handle_event`,
scene dispatch in `SDL_AppEvent`) -/

/-- `UPDATE_VIEW_CHANGED` (`src/main.cpp:76`). -/
def UPDATE_VIEW_CHANGED : ℕ := 1

/-- `UPDATE_SETTINGS_CHANGED` (`src/main.cpp:77`). -/
def UPDATE_SETTINGS_CHANGED : ℕ := 2

/-- The Windows `RGB(r,g,b)` packing: red in the low byte. -/
def RGB (r g b : ℕ) : ℕ := r + g * 256 + b * 65536

/-- `color_from_key` (`src/main.cpp:2612-2631`): the single-letter color
codes `r,g,b,k,s,w` (by ASCII code) map to red, green, blue, black, black
and white. -/
def color_from_key (key : ℕ) : Option ℕ :=
  if key = 114 then some (RGB 255 0 0)
  else if key = 103 then some (RGB 0 255 0)
  else if key = 98 then some (RGB 0 0 255)
  else if key = 107 then some (RGB 0 0 0)
  else if key = 115 then some (RGB 0 0 0)
  else if key = 119 then some (RGB 255 255 255)
  else none

/-- SDL3 keycode of the Delete key. -/
def SDLK_DELETE : ℕ := 127

/-- SDL3 keycode of the F key (lowercase ASCII). -/
def SDLK_F : ℕ := 102

/-- The input events a screen object's `handle_event` inspects.  A key-down
event carries the global cursor position that `hit_test_at_cursor` reads via
`SDL_GetGlobalMouseState`. -/
inductive SDLEvent
  | mouseWheel (mouseX mouseY wheelY : ℚ) (ctrl shift : Bool)
  | mouseButtonDown (x y : ℚ)
  | mouseButtonUp
  | mouseMotion (x y : ℚ)
  | keyDown (key : ℕ) (cursorX cursorY : ℚ)
  | windowFocusLost
  | otherEvent

/-- The relation of `app->mouse_capture` to one object, as seen from that
object's `handle_event`: it points to this object, to another object, or to
nothing. -/
inductive CaptureView
  | self
  | another
  | free
deriving DecidableEq

/-- The pieces of `AppContext` that `Signature::handle_event` and
`Image::handle_event` read and write (`src/main.cpp:106-109`). -/
structure AppView where
  layout_mode : Bool
  capture : CaptureView
  dragging_originX : ℚ
  dragging_originY : ℚ
  dragging_offsetX : ℚ
  dragging_offsetY : ℚ
deriving DecidableEq

/-- The transcendental values one `handle_event` call may consume: the
cosine/sine of `-rotate` degrees used by `hit_test`, the cosine/sine of the
±5 degree wheel rotation, and `powf(1.1f, wheel.y)` for wheel scaling.
Every verified property holds for arbitrary values of these parameters. -/
structure TrigParams where
  cosInv : ℚ
  sinInv : ℚ
  cosDelta : ℚ
  sinDelta : ℚ
  dScale : ℚ

/-- Result of one `handle_event` call: the returned flag, the
`needs_update` out-parameter, and the updated object and app state. -/
structure HandleResult (α : Type) where
  handled : Bool
  needs_update : ℕ
  obj : α
  app : AppView

/-- The state of a `Signature` object touched by `handle_event`. -/
structure SignatureState where
  posX : ℚ
  posY : ℚ
  extentX : ℤ
  extentY : ℤ
  extentW : ℤ
  extentH : ℤ
  scale : ℚ
  rotate : ℚ
  alpha : ℚ
  font_color : ℕ
  hasTexture : Bool
  deleted : Bool
deriving DecidableEq

/-- `Signature::hit_test` (`src/main.cpp:784-800`): the rectangle-only base
test (no per-pixel alpha). -/
def Signature_hit_test (s : SignatureState) (ptX ptY cInv sInv : ℚ) : Bool :=
  if !(s.hasTexture && !s.deleted) then false
  else
    let p := if s.rotate = 0 then (ptX, ptY)
             else rotate_point s.posX s.posY ptX ptY cInv sInv
    SDL_PointInRectFloat p.1 p.2 (s.posX - s.extentX * s.scale)
      (s.posY - s.extentY * s.scale) (s.extentW * s.scale) (s.extentH * s.scale)

/-- `Signature::handle_event` (`src/main.cpp:802-925`).  The first line is
the gate `if (!app->layout_mode || !valid()) return false;`.  The recolor
branch updates `font_color` (the bitmap remap preserves per-pixel alpha and
is not modelled). -/
def Signature_handle_event (tp : TrigParams) (ev : SDLEvent)
    (s : SignatureState) (app : AppView) : HandleResult SignatureState :=
  if !(app.layout_mode && s.hasTexture && !s.deleted) then ⟨false, 0, s, app⟩
  else
    match ev with
    | .mouseWheel mx my wy ctrl shift =>
      if Signature_hit_test s mx my tp.cosInv tp.sinInv then
        if ctrl then
          let rotated := rotate_point mx my s.posX s.posY tp.cosDelta tp.sinDelta
          ⟨true, UPDATE_SETTINGS_CHANGED,
            { s with posX := rotated.1, posY := rotated.2,
                     rotate := s.rotate + (if wy < 0 then -5 else 5) }, app⟩
        else if shift then
          ⟨true, UPDATE_SETTINGS_CHANGED,
            { s with scale := s.scale * tp.dScale,
                     posX := s.posX + (s.posX - mx) * (tp.dScale - 1),
                     posY := s.posY + (s.posY - my) * (tp.dScale - 1) }, app⟩
        else
          ⟨true, UPDATE_SETTINGS_CHANGED,
            { s with alpha := if wy < 0 then max 0 (s.alpha - 5/255)
                              else min 1 (s.alpha + 5/255) }, app⟩
      else ⟨false, 0, s, app⟩
    | .mouseButtonDown x y =>
      if Signature_hit_test s x y tp.cosInv tp.sinInv then
        ⟨true, 0, s,
          { app with capture := .self, dragging_originX := x, dragging_originY := y,
                     dragging_offsetX := x - s.posX, dragging_offsetY := y - s.posY }⟩
      else ⟨false, 0, s, app⟩
    | .mouseButtonUp =>
      if app.capture = .self then
        ⟨true, UPDATE_SETTINGS_CHANGED,
          { s with posX := app.dragging_originX - app.dragging_offsetX,
                   posY := app.dragging_originY - app.dragging_offsetY },
          { app with capture := .free, dragging_offsetX := 0, dragging_offsetY := 0 }⟩
      else ⟨false, 0, s, app⟩
    | .mouseMotion x y =>
      if app.capture = .self then
        ⟨true, UPDATE_VIEW_CHANGED, s,
          { app with dragging_originX := x, dragging_originY := y }⟩
      else if app.capture = .free ∧ Signature_hit_test s x y tp.cosInv tp.sinInv = true then
        ⟨true, 0, s, app⟩
      else ⟨false, 0, s, app⟩
    | .keyDown key cx cy =>
      match color_from_key key with
      | some c =>
        if Signature_hit_test s cx cy tp.cosInv tp.sinInv then
          ⟨true, UPDATE_SETTINGS_CHANGED, { s with font_color := c }, app⟩
        else ⟨false, 0, s, app⟩
      | none =>
        if key = SDLK_DELETE ∧ Signature_hit_test s cx cy tp.cosInv tp.sinInv = true then
          ⟨true, UPDATE_SETTINGS_CHANGED, { s with deleted := true }, app⟩
        else ⟨false, 0, s, app⟩
    | _ => ⟨false, 0, s, app⟩

/-- `Image::handle_event` (`src/main.cpp:1164-1280`), with the same gate
`if (!app->layout_mode || !valid()) return false;`; the key branches are
`F` (toggle horizontal flip) and `Delete`. -/
def Image_handle_event (tp : TrigParams) (ev : SDLEvent)
    (img : ImageState) (app : AppView) : HandleResult ImageState :=
  if !(app.layout_mode && img.is_valid) then ⟨false, 0, img, app⟩
  else
    match ev with
    | .mouseWheel mx my wy ctrl shift =>
      if Image_hit_test img mx my tp.cosInv tp.sinInv then
        if ctrl then
          let rotated := rotate_point mx my img.posX img.posY tp.cosDelta tp.sinDelta
          ⟨true, UPDATE_SETTINGS_CHANGED,
            { img with posX := rotated.1, posY := rotated.2,
                       rotate := img.rotate + (if wy < 0 then -5 else 5) }, app⟩
        else if shift then
          ⟨true, UPDATE_SETTINGS_CHANGED,
            { img with scale := img.scale * tp.dScale,
                       posX := img.posX + (img.posX - mx) * (tp.dScale - 1),
                       posY := img.posY + (img.posY - my) * (tp.dScale - 1) }, app⟩
        else
          ⟨true, UPDATE_SETTINGS_CHANGED,
            { img with alpha := if wy < 0 then max 0 (img.alpha - 5/255)
                                else min 1 (img.alpha + 5/255) }, app⟩
      else ⟨false, 0, img, app⟩
    | .mouseButtonDown x y =>
      if Image_hit_test img x y tp.cosInv tp.sinInv then
        ⟨true, 0, img,
          { app with capture := .self, dragging_originX := x, dragging_originY := y,
                     dragging_offsetX := x - img.posX, dragging_offsetY := y - img.posY }⟩
      else ⟨false, 0, img, app⟩
    | .mouseButtonUp =>
      if app.capture = .self then
        ⟨true, UPDATE_SETTINGS_CHANGED,
          { img with posX := app.dragging_originX - app.dragging_offsetX,
                     posY := app.dragging_originY - app.dragging_offsetY },
          { app with capture := .free, dragging_offsetX := 0, dragging_offsetY := 0 }⟩
      else ⟨false, 0, img, app⟩
    | .mouseMotion x y =>
      if app.capture = .self then
        ⟨true, UPDATE_VIEW_CHANGED, img,
          { app with dragging_originX := x, dragging_originY := y }⟩
      else if app.capture = .free ∧ Image_hit_test img x y tp.cosInv tp.sinInv = true then
        ⟨true, 0, img, app⟩
      else ⟨false, 0, img, app⟩
    | .keyDown key cx cy =>
      if key = SDLK_F ∧ Image_hit_test img cx cy tp.cosInv tp.sinInv = true then
        ⟨true, UPDATE_SETTINGS_CHANGED,
          { img with flip_horizontal := !img.flip_horizontal }, app⟩
      else if key = SDLK_DELETE ∧ Image_hit_test img cx cy tp.cosInv tp.sinInv = true then
        ⟨true, UPDATE_SETTINGS_CHANGED, { img with deleted := true }, app⟩
      else ⟨false, 0, img, app⟩
    | _ => ⟨false, 0, img, app⟩

/-! ## Scene-level capture tracking (`SDL_AppEvent`) -/

/-- Discriminator of the four screen-object classes. -/
inductive ObjKind
  | lines
  | signatureObj
  | imageObj
  | animatedGifObj
deriving DecidableEq

/-- The per-object facts the scene-level button-up dispatch depends on. -/
structure SceneObj where
  kind : ObjKind
  is_valid : Bool
deriving DecidableEq

/-- Whether `handle_event(SDL_EVENT_MOUSE_BUTTON_UP)` of one object returns
true given whether it is the captured one: Signature, Image and AnimatedGif
handle it exactly when layout mode is on, the object is valid and
`app->mouse_capture == this` (`src/main.cpp:802-804,864-877`,
`1164-1166,1223-1235`, `1480-1490`); `LineObject::handle_event` has no
button-up branch (`src/main.cpp:313-365`). -/
def obj_handles_button_up (layout : Bool) (captured : Bool) (o : SceneObj) : Bool :=
  match o.kind with
  | .lines => false
  | _ => layout && o.is_valid && captured

/-- Index of the object the dispatch loop of `SDL_AppEvent` skips: the first
object whose `type_name()` is "Lines" (`src/main.cpp:1980-1988`). -/
def first_lines_index : List SceneObj → Option ℕ
  | [] => none
  | o :: rest =>
    if o.kind = .lines then some 0 else (first_lines_index rest).map (· + 1)

/-- Scene interaction state: `app->mouse_capture` is a single pointer,
modelled as an optional index into the object list. -/
structure SceneState where
  layout_mode : Bool
  capture : Option ℕ
  objs : List SceneObj
deriving DecidableEq

/-- The dispatch loop of `SDL_AppEvent` (`src/main.cpp:1991-2011`) for a
button-up event, walking the objects from index `i`: the line object is
passed over, and the first handler that returns true stops dispatch; a
button-up handler's only effect on `app->mouse_capture` is to clear it.
The line object, dispatched last, ignores button-up. -/
def scene_button_up_loop (layout : Bool) (capture : Option ℕ)
    (skip : Option ℕ) : List SceneObj → ℕ → Option ℕ
  | [], _ => capture
  | o :: rest, i =>
    if skip = some i then scene_button_up_loop layout capture skip rest (i + 1)
    else if obj_handles_button_up layout (decide (capture = some i)) o then none
    else scene_button_up_loop layout capture skip rest (i + 1)

/-- One `SDL_EVENT_MOUSE_BUTTON_UP` pass of `SDL_AppEvent`, restricted to its
effect on the capture state. -/
def scene_button_up (st : SceneState) : SceneState :=
  { st with capture :=
      (scene_button_up_loop st.layout_mode st.capture (first_lines_index st.objs)
        st.objs 0) }

/-- The `SDL_EVENT_WINDOW_FOCUS_LOST` branch of `SDL_AppEvent`
(`src/main.cpp:2052-2055`): `app->mouse_capture = nullptr`, always. -/
def scene_focus_lost (st : SceneState) : SceneState :=
  { st with capture := none }

/-! ## Concrete states used by counterexamples and witnesses -/

/-- Transcendental parameters instantiated at angle 0 (cos 1, sin 0) and a
unit wheel-scale factor. -/
def unit_trig : TrigParams :=
  { cosInv := 1, sinInv := 0, cosDelta := 1, sinDelta := 0, dScale := 1 }

/-- A valid, unrotated signature object. -/
def drag_signature : SignatureState :=
  { posX := 5, posY := 5, extentX := 1, extentY := 1, extentW := 2, extentH := 2,
    scale := 1, rotate := 0, alpha := 1, font_color := 0,
    hasTexture := true, deleted := false }

/-- App state in the middle of a drag of the object under consideration,
with layout/edit mode switched off. -/
def dragging_no_layout : AppView :=
  { layout_mode := false, capture := .self, dragging_originX := 10,
    dragging_originY := 10, dragging_offsetX := 1, dragging_offsetY := 1 }

/-- App state in the middle of a drag, with layout/edit mode on. -/
def dragging_in_layout : AppView :=
  { layout_mode := true, capture := .self, dragging_originX := 10,
    dragging_originY := 10, dragging_offsetX := 1, dragging_offsetY := 1 }

/-- A valid 2x2 image whose only opaque pixel (alpha 100) is at (0,0); the
other pixels have alpha 10. -/
def test_image : ImageState :=
  { posX := 1, posY := 1, extentX := 1, extentY := 1, extentW := 2, extentH := 2,
    scale := 1, rotate := 0, alpha := 1, flip_horizontal := false,
    alphaAt := fun x y => if x = 0 ∧ y = 0 then 100 else 10,
    hasTexture := true, deleted := false }

/-- A scene dragging object 0 (a signature) with layout mode off. -/
def stuck_scene : SceneState :=
  { layout_mode := false, capture := some 0, objs := [⟨.signatureObj, true⟩] }

/-- A scene dragging object 1 (a signature behind the line object) with
layout mode on. -/
def drag_scene : SceneState :=
  { layout_mode := true, capture := some 1,
    objs := [⟨.lines, true⟩, ⟨.signatureObj, true⟩] }

end Dragon

namespace Dragon

/-! ## Basic numeric lemmas -/

theorem abs_ctrunc_sub_lt (q : ℚ) : |(ctrunc q : ℚ) - q| < 1 := by
  unfold ctrunc
  split
  · push_cast
    rw [abs_sub_lt_iff]
    constructor
    · linarith [Int.sub_one_lt_floor (-q)]
    · linarith [Int.floor_le (-q)]
  · rw [abs_sub_lt_iff]
    constructor
    · linarith [Int.floor_le q]
    · linarith [Int.lt_floor_add_one q]

theorem abs_cround_sub_le (q : ℚ) : |(cround q : ℚ) - q| ≤ 1/2 := by
  unfold cround
  split
  · push_cast
    rw [abs_sub_le_iff]
    constructor
    · linarith [Int.lt_floor_add_one (-q + 1/2)]
    · linarith [Int.floor_le (-q + 1/2)]
  · rw [abs_sub_le_iff]
    constructor
    · linarith [Int.floor_le (q + 1/2)]
    · linarith [Int.lt_floor_add_one (q + 1/2)]

theorem abs_round_to_precision_sub_le (value : ℚ) (decimals : ℕ) :
    |round_to_precision value decimals - value| ≤ 1 / (2 * 10 ^ decimals) := by
  have hpow : (0:ℚ) < 10 ^ decimals := by positivity
  have h := abs_cround_sub_le (value * 10 ^ decimals)
  have hrepr : round_to_precision value decimals - value =
      ((cround (value * 10 ^ decimals) : ℚ) - value * 10 ^ decimals) / 10 ^ decimals := by
    unfold round_to_precision
    field_simp
    ring
  rw [hrepr, abs_div, abs_of_pos hpow, div_le_div_iff₀ hpow (by positivity)]
  nlinarith [hpow, h]

/-! ## C7: blended alpha -/

/-- C7: the effective render alpha is `min(1, obj*0.5 + glob*0.8 + 0.1)`;
it equals 0.1 at (0,0), equals 1.0 at (1,1), and for all opacities in [0,1]
it stays within [0.1, 1], so a faded object is never fully invisible. -/
theorem blended_alpha_spec :
    BLENDED_ALPHA_FLOAT 0 0 = 1/10 ∧
    BLENDED_ALPHA_FLOAT 1 1 = 1 ∧
    (∀ a b : ℚ, BLENDED_ALPHA_FLOAT a b = min 1 (a * (1/2) + b * (4/5) + 1/10)) ∧
    (∀ a b : ℚ, 0 ≤ a → a ≤ 1 → 0 ≤ b → b ≤ 1 →
      1/10 ≤ BLENDED_ALPHA_FLOAT a b ∧ BLENDED_ALPHA_FLOAT a b ≤ 1) := by
  refine ⟨by norm_num [BLENDED_ALPHA_FLOAT], by norm_num [BLENDED_ALPHA_FLOAT],
    fun a b => rfl, fun a b ha ha1 hb hb1 => ⟨?_, min_le_left _ _⟩⟩
  unfold BLENDED_ALPHA_FLOAT
  rw [le_min_iff]
  constructor
  · norm_num
  · linarith

/-- Witness for `blended_alpha_spec` at object alpha 1/2, global alpha 1/4. -/
theorem blended_alpha_spec_witness :
    1/10 ≤ BLENDED_ALPHA_FLOAT (1/2) (1/4) ∧ BLENDED_ALPHA_FLOAT (1/2) (1/4) ≤ 1 :=
  blended_alpha_spec.2.2.2 (1/2) (1/4) (by norm_num) (by norm_num)
    (by norm_num) (by norm_num)

/-! ## C1, C6: GIF disposal and raster decode -/

theorem mapRGBA8888_ne_zero (r g b : ℕ) : mapRGBA8888 r g b 255 ≠ 0 := by
  unfold mapRGBA8888
  omega

/-- C1: with a perfectly valid background palette index (index 0 of a
two-entry palette whose entry 0 is opaque red), the restore-to-background
disposal fills the previous frame's rectangle with 0, i.e. fully transparent
pixels — not with the background color `mapRGBA8888 255 0 0 255` that the
claim (and the code's own comment, "Clear the area of the previous frame to
the background color") requires.  The guard's `<` is inverted: the
background-color branch is reachable only for an out-of-range index, where it
reads past the end of the palette. -/
theorem gif_dispose_background_bug :
    dispose_background_fill 0 [⟨255, 0, 0⟩, ⟨0, 255, 0⟩] = some 0 ∧
    some 0 ≠ some (mapRGBA8888 255 0 0 255) := by
  constructor
  · rfl
  · intro h
    exact mapRGBA8888_ne_zero 255 0 0 (Option.some_injective _ h).symm

/-- C6: during the per-frame raster decode, a pixel whose palette index equals
the frame's transparent index leaves the canvas pixel unchanged, any other
in-palette index overwrites the pixel with the palette-mapped RGBA color at
full (255) opacity, and the sentinel no-write value 0 never coincides with
the mapped value of an opaque palette entry. -/
theorem gif_decode_pixel_spec (colors : List GifColor) (transparent_color : ℤ)
    (color_index : ℕ) (old : ℕ) (h : color_index < colors.length) :
    ((color_index : ℤ) = transparent_color →
      render_frame_pixel colors transparent_color color_index old = old) ∧
    ((color_index : ℤ) ≠ transparent_color →
      render_frame_pixel colors transparent_color color_index old =
        mapRGBA8888 (colors.getD color_index ⟨0, 0, 0⟩).red
          (colors.getD color_index ⟨0, 0, 0⟩).green
          (colors.getD color_index ⟨0, 0, 0⟩).blue 255) ∧
    (∀ r g b : ℕ, mapRGBA8888 r g b 255 ≠ 0) := by
  refine ⟨fun ht => ?_, fun ht => ?_, mapRGBA8888_ne_zero⟩
  · simp [render_frame_pixel, palette_color, ht, h]
  · simp [render_frame_pixel, palette_color, ht, h, mapRGBA8888_ne_zero]

/-- Witness for `gif_decode_pixel_spec`: a two-entry palette with transparent
index 0, decoding raster index 1 over an old pixel value 7. -/
theorem gif_decode_pixel_spec_witness :
    (((1 : ℕ) : ℤ) = 0 → render_frame_pixel [⟨1, 2, 3⟩, ⟨4, 5, 6⟩] 0 1 7 = 7) ∧
    (((1 : ℕ) : ℤ) ≠ 0 →
      render_frame_pixel [⟨1, 2, 3⟩, ⟨4, 5, 6⟩] 0 1 7 =
        mapRGBA8888 (([⟨1, 2, 3⟩, ⟨4, 5, 6⟩] : List GifColor).getD 1 ⟨0, 0, 0⟩).red
          (([⟨1, 2, 3⟩, ⟨4, 5, 6⟩] : List GifColor).getD 1 ⟨0, 0, 0⟩).green
          (([⟨1, 2, 3⟩, ⟨4, 5, 6⟩] : List GifColor).getD 1 ⟨0, 0, 0⟩).blue 255) ∧
    (∀ r g b : ℕ, mapRGBA8888 r g b 255 ≠ 0) :=
  gif_decode_pixel_spec [⟨1, 2, 3⟩, ⟨4, 5, 6⟩] 0 1 7 (by decide)

/-! ## C4: line spacing -/

/-- C4 counterexample: a persisted record carrying `line_spacing = 100` is
stored as 100, which lies outside the claimed range [2, 50]. -/
theorem line_spacing_init_unclamped :
    init_line_spacing (some 100) = 100 ∧ ¬(init_line_spacing (some 100) ≤ 50) := by
  constructor
  · rfl
  · norm_num [init_line_spacing]

/-- C4 amended: the interactive wheel adjustment always leaves the spacing in
[2, 50], but initialization from a persisted record stores the record's value
unclamped. -/
theorem line_spacing_wheel_clamped (s : ℚ) (wheel_up : Bool) :
    2 ≤ wheel_adjust_spacing s wheel_up ∧ wheel_adjust_spacing s wheel_up ≤ 50 ∧
    ∀ v : ℚ, init_line_spacing (some v) = v :=
  ⟨le_min (by norm_num) (le_max_left _ _), min_le_left _ _, fun _ => rfl⟩

/-! ## C3: serialization round trip -/

/-- C3 counterexample: an object at `x = 1/2` serializes to `x = 0`
(`(int)` truncation), so the deserialized position differs from the original
by 1/2, far above the claimed 1e-3 tolerance. -/
theorem roundtrip_position_counterexample :
    |(from_record (to_record ⟨1/2, 0, 1, 0, 1⟩)).x - (1/2 : ℚ)| = 1/2 ∧
    ¬(|(from_record (to_record ⟨1/2, 0, 1, 0, 1⟩)).x - (1/2 : ℚ)| ≤ 1/1000) := by
  have hx : (from_record (to_record ⟨1/2, 0, 1, 0, 1⟩)).x = 0 := by
    norm_num [from_record, to_record, ctrunc]
  rw [hx, zero_sub, abs_neg, abs_of_nonneg (by norm_num : (0:ℚ) ≤ 1/2)]
  norm_num

/-- C3 amended: after a serialize/deserialize round trip, position is
reproduced within 1 (integer truncation of each coordinate), scale and
rotation within 1e-3 (they are rounded to 4 decimals, so within 5e-5), and
opacity within 5e-3 (it is rounded to 2 decimals). -/
theorem roundtrip_tolerances (p : ObjectProps) :
    |(from_record (to_record p)).x - p.x| < 1 ∧
    |(from_record (to_record p)).y - p.y| < 1 ∧
    |(from_record (to_record p)).scale - p.scale| ≤ 1/1000 ∧
    |(from_record (to_record p)).rotate - p.rotate| ≤ 1/1000 ∧
    |(from_record (to_record p)).alpha - p.alpha| ≤ 1/200 := by
  refine ⟨abs_ctrunc_sub_lt _, abs_ctrunc_sub_lt _, ?_, ?_, ?_⟩
  · exact le_trans (abs_round_to_precision_sub_le p.scale 4) (by norm_num)
  · exact le_trans (abs_round_to_precision_sub_le p.rotate 4) (by norm_num)
  · exact le_trans (abs_round_to_precision_sub_le p.alpha 2) (by norm_num)

/-! ## C10: hex color round trip -/

theorem hex_digit_roundtrip :
    ∀ n : ℕ, n < 16 →
      is_hex_digit (to_hex_digit_upper n) = true ∧ hex_digit_val (to_hex_digit_upper n) = n := by
  decide

/-- C10: parsing the serializer's output returns the color unchanged for every
color in `0x000000 .. 0xFFFFFF`; the serializer raises an error above
`0xFFFFFF`; and the parser succeeds only on strings of the exact form
`#RRGGBB` — length 7, leading `'#'`, six hex digits. -/
theorem hex_color_roundtrip_spec :
    (∀ c : ℕ, c ≤ 0xFFFFFF → (int_to_hex_color c).bind hex_color_to_int = some c) ∧
    (∀ c : ℕ, c > 0xFFFFFF → int_to_hex_color c = none) ∧
    (∀ s : List Char, ∀ v : ℕ, hex_color_to_int s = some v →
      s.length = 7 ∧ s.headD ' ' = '#' ∧ s.tail.all is_hex_digit = true) := by
  refine ⟨fun c hc => ?_, fun c hc => if_pos hc, fun s v h => ?_⟩
  · have h1 := hex_digit_roundtrip (c / 1048576 % 16) (Nat.mod_lt _ (by norm_num))
    have h2 := hex_digit_roundtrip (c / 65536 % 16) (Nat.mod_lt _ (by norm_num))
    have h3 := hex_digit_roundtrip (c / 4096 % 16) (Nat.mod_lt _ (by norm_num))
    have h4 := hex_digit_roundtrip (c / 256 % 16) (Nat.mod_lt _ (by norm_num))
    have h5 := hex_digit_roundtrip (c / 16 % 16) (Nat.mod_lt _ (by norm_num))
    have h6 := hex_digit_roundtrip (c % 16) (Nat.mod_lt _ (by norm_num))
    rw [int_to_hex_color, if_neg (by omega), Option.some_bind, hex_color_to_int]
    rw [if_pos (by simp [h1.1, h2.1, h3.1, h4.1, h5.1, h6.1])]
    rw [h1.2, h2.2, h3.2, h4.2, h5.2, h6.2, Option.some_inj]
    omega
  · rcases s with _ | ⟨c0, _ | ⟨c1, _ | ⟨c2, _ | ⟨c3, _ | ⟨c4, _ | ⟨c5, _ | ⟨c6, _ | ⟨c7, rest⟩⟩⟩⟩⟩⟩⟩⟩
    · simp [hex_color_to_int] at h
    · simp [hex_color_to_int] at h
    · simp [hex_color_to_int] at h
    · simp [hex_color_to_int] at h
    · simp [hex_color_to_int] at h
    · simp [hex_color_to_int] at h
    · simp [hex_color_to_int] at h
    · by_cases hc0 : c0 = '#'
      · subst hc0
        rw [hex_color_to_int] at h
        by_cases hdig : (is_hex_digit c1 && is_hex_digit c2 && is_hex_digit c3 &&
            is_hex_digit c4 && is_hex_digit c5 && is_hex_digit c6) = true
        · simp only [Bool.and_eq_true] at hdig
          obtain ⟨⟨⟨⟨⟨ha, hb⟩, hc⟩, hd⟩, he⟩, hf⟩ := hdig
          refine ⟨rfl, rfl, ?_⟩
          simp [ha, hb, hc, hd, he, hf]
        · rw [if_neg hdig] at h
          exact absurd h (by simp)
      · have : hex_color_to_int (c0 :: [c1, c2, c3, c4, c5, c6]) = none := by
          rw [hex_color_to_int]
          simp [hc0]
        rw [this] at h
        exact absurd h (by simp)
    · simp [hex_color_to_int] at h

/-- Witness for `hex_color_roundtrip_spec`: the round trip at `0xABCDEF`
and the serializer error at `0x1000000`. -/
theorem hex_color_roundtrip_spec_witness :
    (int_to_hex_color 0xABCDEF).bind hex_color_to_int = some 0xABCDEF ∧
    int_to_hex_color 0x1000000 = none :=
  ⟨hex_color_roundtrip_spec.1 0xABCDEF (by norm_num),
    hex_color_roundtrip_spec.2.1 0x1000000 (by norm_num)⟩

/-! ## C8: hatch-line generator at angle 0 -/

theorem ctrunc_intCast (n : ℤ) : ctrunc (n : ℚ) = n := by
  unfold ctrunc
  split
  · have hcast : (-(n : ℚ)) = ((-n : ℤ) : ℚ) := by push_cast; ring
    rw [hcast, Int.floor_intCast, neg_neg]
  · rw [Int.floor_intCast]

/-- At sine 0 / cosine 1 (angle 0), every line `y = c` with `0 ≤ c ≤ H`
yields the full-width horizontal segment from `(0, c)` to `(W, c)`. -/
theorem segment_of_line_horizontal (W H : ℤ) (c : ℚ) (hW : 0 < W)
    (h0 : 0 ≤ c) (hH : c ≤ (H : ℚ)) :
    segment_of_line W H 0 1 c = some (⟨0, ctrunc c⟩, ⟨W, ctrunc c⟩) := by
  have hcand : intersection_candidates W H 0 1 c =
      [⟨0, ctrunc c⟩, ⟨W, ctrunc c⟩] := by
    unfold intersection_candidates
    have hc1 : ¬((0:ℚ) ≠ 0 ∧ 0 ≤ -c / 0 ∧ -c / 0 ≤ (W : ℚ)) := by simp
    have hc2 : ¬((0:ℚ) ≠ 0 ∧ 0 ≤ ((H : ℚ) * 1 - c) / 0 ∧
        ((H : ℚ) * 1 - c) / 0 ≤ (W : ℚ)) := by simp
    have hc3 : (1:ℚ) ≠ 0 ∧ 0 ≤ c / 1 ∧ c / 1 ≤ (H : ℚ) :=
      ⟨one_ne_zero, by simpa using h0, by simpa using hH⟩
    have hc4 : (1:ℚ) ≠ 0 ∧ 0 ≤ (c + (W : ℚ) * 0) / 1 ∧
        (c + (W : ℚ) * 0) / 1 ≤ (H : ℚ) :=
      ⟨one_ne_zero, by simpa using h0, by simpa using hH⟩
    rw [if_neg hc1, if_neg hc2, if_pos hc3, if_pos hc4]
    simp
  have hle : ipoint_le ⟨0, ctrunc c⟩ ⟨W, ctrunc c⟩ = true := by
    unfold ipoint_le
    simp only [decide_eq_true_eq]
    exact Or.inl hW
  have hne : ¬((⟨0, ctrunc c⟩ : IPoint) = ⟨W, ctrunc c⟩) := by
    intro hEq
    have : (0 : ℤ) = W := congrArg IPoint.x hEq
    omega
  unfold segment_of_line
  rw [hcand]
  simp [sort_points, insert_sorted, hle, dedup_adjacent, hne]

theorem line_constants_horizontal_100 :
    line_constants 0 100 10 = [0, 10, 20, 30, 40, 50, 60, 70, 80, 90] := by
  unfold line_constants
  rw [if_pos (by norm_num : (0:ℚ) < 10)]
  have hceil : (⌈((100:ℚ) - 0) / 10⌉).toNat = 10 := by
    have harg : ((100:ℚ) - 0) / 10 = ((10 : ℤ) : ℚ) := by norm_num
    rw [harg, Int.ceil_intCast]
    rfl
  rw [hceil]
  have hr : List.range 10 = [0, 1, 2, 3, 4, 5, 6, 7, 8, 9] := rfl
  rw [hr]
  norm_num [List.map_cons]

/-- C8: at angle 0 degrees (sine 0, cosine 1) on a 100x100 area with spacing
10, the generator produces exactly 10 segments, each horizontal and spanning
the full width from x = 0 to x = 100. -/
theorem hatch_horizontal_spec :
    (hatch_segments 100 100 0 1 10).length = 10 ∧
    (hatch_segments 100 100 0 1 10).all
      (fun s => decide (s.1.x = 0 ∧ s.2.x = 100 ∧ s.1.y = s.2.y)) = true := by
  have hbody : hatch_segments 100 100 0 1 10 =
      (line_constants 0 100 10).filterMap (segment_of_line 100 100 0 1) := by
    unfold hatch_segments
    norm_num
  have hseg : ∀ c : ℚ, 0 ≤ c → c ≤ 100 →
      segment_of_line 100 100 0 1 c = some (⟨0, ctrunc c⟩, ⟨100, ctrunc c⟩) := by
    intro c h0 hc
    exact segment_of_line_horizontal 100 100 c (by norm_num) h0 (by exact_mod_cast hc)
  have t0 : ctrunc (0 : ℚ) = 0 := by simpa using ctrunc_intCast 0
  have t10 : ctrunc (10 : ℚ) = 10 := by simpa using ctrunc_intCast 10
  have t20 : ctrunc (20 : ℚ) = 20 := by simpa using ctrunc_intCast 20
  have t30 : ctrunc (30 : ℚ) = 30 := by simpa using ctrunc_intCast 30
  have t40 : ctrunc (40 : ℚ) = 40 := by simpa using ctrunc_intCast 40
  have t50 : ctrunc (50 : ℚ) = 50 := by simpa using ctrunc_intCast 50
  have t60 : ctrunc (60 : ℚ) = 60 := by simpa using ctrunc_intCast 60
  have t70 : ctrunc (70 : ℚ) = 70 := by simpa using ctrunc_intCast 70
  have t80 : ctrunc (80 : ℚ) = 80 := by simpa using ctrunc_intCast 80
  have t90 : ctrunc (90 : ℚ) = 90 := by simpa using ctrunc_intCast 90
  have hlist : hatch_segments 100 100 0 1 10 =
      [(⟨0, 0⟩, ⟨100, 0⟩), (⟨0, 10⟩, ⟨100, 10⟩), (⟨0, 20⟩, ⟨100, 20⟩),
       (⟨0, 30⟩, ⟨100, 30⟩), (⟨0, 40⟩, ⟨100, 40⟩), (⟨0, 50⟩, ⟨100, 50⟩),
       (⟨0, 60⟩, ⟨100, 60⟩), (⟨0, 70⟩, ⟨100, 70⟩), (⟨0, 80⟩, ⟨100, 80⟩),
       (⟨0, 90⟩, ⟨100, 90⟩)] := by
    rw [hbody, line_constants_horizontal_100]
    rw [List.filterMap_cons, hseg 0 (by norm_num) (by norm_num)]
    rw [List.filterMap_cons, hseg 10 (by norm_num) (by norm_num)]
    rw [List.filterMap_cons, hseg 20 (by norm_num) (by norm_num)]
    rw [List.filterMap_cons, hseg 30 (by norm_num) (by norm_num)]
    rw [List.filterMap_cons, hseg 40 (by norm_num) (by norm_num)]
    rw [List.filterMap_cons, hseg 50 (by norm_num) (by norm_num)]
    rw [List.filterMap_cons, hseg 60 (by norm_num) (by norm_num)]
    rw [List.filterMap_cons, hseg 70 (by norm_num) (by norm_num)]
    rw [List.filterMap_cons, hseg 80 (by norm_num) (by norm_num)]
    rw [List.filterMap_cons, hseg 90 (by norm_num) (by norm_num)]
    rw [t0, t10, t20, t30, t40, t50, t60, t70, t80, t90]
    rfl
  rw [hlist]
  exact ⟨rfl, rfl⟩

/-! ## C5: image hit-testing by per-pixel alpha -/

/-- C5: for a valid image, a point whose inverse-rotated image lies outside
the scaled bounding rectangle never hits; a point inside hits exactly when
the alpha of the corresponding bitmap pixel exceeds 50 (whenever that pixel
exists on the surface). -/
theorem image_hit_test_spec (img : ImageState) (ptX ptY cInv sInv : ℚ)
    (hvalid : img.is_valid = true) :
    (SDL_PointInRectFloat (image_local_point img ptX ptY cInv sInv).1
        (image_local_point img ptX ptY cInv sInv).2
        (image_rect img).1 (image_rect img).2.1
        (image_rect img).2.2.1 (image_rect img).2.2.2 = false →
      Image_hit_test img ptX ptY cInv sInv = false) ∧
    (SDL_PointInRectFloat (image_local_point img ptX ptY cInv sInv).1
        (image_local_point img ptX ptY cInv sInv).2
        (image_rect img).1 (image_rect img).2.1
        (image_rect img).2.2.1 (image_rect img).2.2.2 = true →
      ∀ x y : ℤ,
        image_pixel_coords img (image_local_point img ptX ptY cInv sInv).1
          (image_local_point img ptX ptY cInv sInv).2 = (x, y) →
        0 ≤ x → x < img.extentW → 0 ≤ y → y < img.extentH →
        (Image_hit_test img ptX ptY cInv sInv = true ↔ 50 < img.alphaAt x y)) := by
  have hv : (!img.is_valid) = false := by rw [hvalid]; rfl
  constructor
  · intro hout
    simp only [Image_hit_test, hv, Bool.false_eq_true, if_false, hout]
  · intro hin x y hxy hx0 hxW hy0 hyH
    have hread : read_surface_alpha img x y = some (img.alphaAt x y) := by
      unfold read_surface_alpha
      rw [if_pos ⟨hx0, hxW, hy0, hyH⟩]
    have h1 : (image_pixel_coords img (image_local_point img ptX ptY cInv sInv).1
        (image_local_point img ptX ptY cInv sInv).2).1 = x := by rw [hxy]
    have h2 : (image_pixel_coords img (image_local_point img ptX ptY cInv sInv).1
        (image_local_point img ptX ptY cInv sInv).2).2 = y := by rw [hxy]
    simp only [Image_hit_test, hv, Bool.false_eq_true, if_false, hin, if_true, h1, h2, hread]
    simp [decide_eq_true_iff]

/-- Witness for `image_hit_test_spec`: the point (1, 1) inside `test_image`
maps to pixel (1, 1), whose alpha is 10 — so the hit test and the alpha
threshold agree (both sides of the equivalence are false there). -/
theorem image_hit_test_spec_witness :
    Image_hit_test test_image 1 1 1 0 = true ↔ 50 < test_image.alphaAt 1 1 :=
  (image_hit_test_spec test_image 1 1 1 0 rfl).2
    (by norm_num [SDL_PointInRectFloat, image_local_point, image_rect, test_image]) 1 1
    (by norm_num [image_pixel_coords, image_local_point, image_rect, test_image, ctrunc])
    (by norm_num) (by norm_num [test_image]) (by norm_num) (by norm_num [test_image])

/-! ## C2: event consumption only in layout/edit mode -/

/-- C2 counterexample: with edit mode off and the object captured mid-drag
(`dragging_no_layout`), neither a button-up nor a captured mouse-motion
event is honored — `handle_event` returns false immediately from the
`if (!app->layout_mode || !valid()) return false;` gate and the capture
stays in place — so the claimed edit-mode exception for in-flight drags does
not exist in the code. -/
theorem drag_events_ignored_outside_edit_mode :
    (Signature_handle_event unit_trig .mouseButtonUp drag_signature
        dragging_no_layout).handled = false ∧
    (Signature_handle_event unit_trig .mouseButtonUp drag_signature
        dragging_no_layout).app.capture = CaptureView.self ∧
    (Signature_handle_event unit_trig (.mouseMotion 11 11) drag_signature
        dragging_no_layout).handled = false ∧
    (Image_handle_event unit_trig .mouseButtonUp test_image
        dragging_no_layout).handled = false :=
  ⟨rfl, rfl, rfl, rfl⟩

/-- C2 amended: `handle_event` of Signature and Image consumes an event only
while the scene is in layout/edit mode (and the object is valid) — with no
exception: captured mouse-motion and button-up are ignored like every other
event when edit mode is off (an in-flight drag is instead resolved by focus
loss, which releases the capture unconditionally). -/
theorem handle_event_only_in_edit_mode :
    (∀ (tp : TrigParams) (ev : SDLEvent) (s : SignatureState) (app : AppView),
      (Signature_handle_event tp ev s app).handled = true → app.layout_mode = true) ∧
    (∀ (tp : TrigParams) (ev : SDLEvent) (img : ImageState) (app : AppView),
      (Image_handle_event tp ev img app).handled = true → app.layout_mode = true) := by
  constructor
  · intro tp ev s app h
    by_contra hl
    rw [Bool.not_eq_true] at hl
    unfold Signature_handle_event at h
    rw [hl] at h
    simp at h
  · intro tp ev img app h
    by_contra hl
    rw [Bool.not_eq_true] at hl
    unfold Image_handle_event at h
    rw [hl] at h
    simp at h

/-- Witness for `handle_event_only_in_edit_mode`: a button-up dispatched to
the captured signature in edit mode is handled, and indeed edit mode is on. -/
theorem handle_event_only_in_edit_mode_witness :
    dragging_in_layout.layout_mode = true :=
  handle_event_only_in_edit_mode.1 unit_trig .mouseButtonUp drag_signature
    dragging_in_layout (by decide)

/-! ## C9: mouse-capture invariants -/

/-- C9 counterexample: in `stuck_scene` — object 0 captured and valid but
layout mode off, a reachable state since SPACE/RETURN toggles layout mode
without releasing capture — a dispatched button-up leaves the capture in
place instead of releasing it. -/
theorem button_up_keeps_capture_outside_edit_mode :
    (scene_button_up stuck_scene).capture = some 0 ∧ (some 0 : Option ℕ) ≠ none :=
  ⟨rfl, by simp⟩

theorem obj_handles_button_up_not_captured (layout : Bool) (o : SceneObj) :
    obj_handles_button_up layout false o = false := by
  unfold obj_handles_button_up
  cases o.kind <;> simp

theorem first_lines_index_is_lines :
    ∀ (objs : List SceneObj) (j : ℕ), first_lines_index objs = some j →
      ∃ o : SceneObj, objs[j]? = some o ∧ o.kind = ObjKind.lines := by
  intro objs
  induction objs with
  | nil =>
    intro j h
    simp [first_lines_index] at h
  | cons o rest ih =>
    intro j h
    unfold first_lines_index at h
    by_cases hk : o.kind = ObjKind.lines
    · rw [if_pos hk] at h
      have hj : j = 0 := (Option.some_inj.mp h).symm
      subst hj
      exact ⟨o, by simp, hk⟩
    · rw [if_neg hk] at h
      cases hrec : first_lines_index rest with
      | none =>
        rw [hrec] at h
        simp at h
      | some j0 =>
        rw [hrec] at h
        simp at h
        obtain ⟨o1, ho1, hk1⟩ := ih j0 hrec
        refine ⟨o1, ?_, hk1⟩
        rw [← h]
        simpa using ho1

theorem scene_button_up_loop_clears :
    ∀ (objs : List SceneObj) (skip : Option ℕ) (base i : ℕ) (o : SceneObj),
      base ≤ i → objs[i - base]? = some o → skip ≠ some i →
      o.is_valid = true → o.kind ≠ ObjKind.lines →
      scene_button_up_loop true (some i) skip objs base = none := by
  intro objs
  induction objs with
  | nil =>
    intro skip base i o hbase hget hskip hv hk
    simp at hget
  | cons o0 rest ih =>
    intro skip base i o hbase hget hskip hv hk
    unfold scene_button_up_loop
    by_cases hi : base = i
    · subst hi
      rw [Nat.sub_self] at hget
      have ho0 : o0 = o := by simpa using hget
      subst ho0
      rw [if_neg (fun hc => hskip hc)]
      have hc : decide ((some base : Option ℕ) = some base) = true := by simp
      rw [hc]
      have hhandle : obj_handles_button_up true true o0 = true := by
        unfold obj_handles_button_up
        cases hkind : o0.kind
        · exact absurd hkind hk
        · simp [hv]
        · simp [hv]
        · simp [hv]
      rw [hhandle]
      simp
    · have hlt : base < i := lt_of_le_of_ne hbase hi
      have hstep : i - base = (i - (base + 1)) + 1 := by omega
      rw [hstep] at hget
      simp only [List.getElem?_cons_succ] at hget
      by_cases hskip0 : skip = some base
      · rw [if_pos hskip0]
        exact ih skip (base + 1) i o (by omega) hget hskip hv hk
      · rw [if_neg hskip0]
        have hnc : decide ((some i : Option ℕ) = some base) = false := by
          simp
          omega
        rw [hnc, obj_handles_button_up_not_captured]
        simp only [Bool.false_eq_true, if_false]
        exact ih skip (base + 1) i o (by omega) hget hskip hv hk

/-- C9 amended: at most one object ever holds mouse capture (the capture is
a single slot); losing window focus always releases it; and a button-up
dispatched while an object is captured releases it provided layout/edit mode
is on and the captured object is a valid selectable (non-Lines) object —
with edit mode off, the button-up is ignored and the capture survives until
focus loss. -/
theorem capture_release_spec :
    (∀ (st : SceneState) (i j : ℕ), st.capture = some i → st.capture = some j → i = j) ∧
    (∀ st : SceneState, (scene_focus_lost st).capture = none) ∧
    (∀ (st : SceneState) (i : ℕ) (o : SceneObj),
      st.layout_mode = true → st.capture = some i → st.objs[i]? = some o →
      o.is_valid = true → o.kind ≠ ObjKind.lines →
      (scene_button_up st).capture = none) := by
  refine ⟨fun st i j hi hj => ?_, fun st => rfl, fun st i o hl hc hget hv hk => ?_⟩
  · rw [hi] at hj
    exact Option.some_inj.mp hj
  · have hskip : first_lines_index st.objs ≠ some i := by
      intro hEq
      obtain ⟨o1, ho1, hk1⟩ := first_lines_index_is_lines st.objs i hEq
      rw [hget] at ho1
      have : o = o1 := Option.some_inj.mp ho1
      exact hk (this ▸ hk1)
    have hmain := scene_button_up_loop_clears st.objs (first_lines_index st.objs) 0 i o
      (Nat.zero_le i) (by simpa using hget) hskip hv hk
    unfold scene_button_up
    rw [hl, hc]
    simpa using hmain

/-- Witness for `capture_release_spec`: dispatching a button-up in
`drag_scene` (layout mode on, object 1 — a valid signature — captured)
releases the capture. -/
theorem capture_release_spec_witness :
    (scene_button_up drag_scene).capture = none :=
  capture_release_spec.2.2 drag_scene 1 ⟨ObjKind.signatureObj, true⟩ rfl rfl
    (by decide) rfl (by decide)

end Dragon
